import Mathlib

/-!
Shallow embedding of the AI content pipeline flow (`src/main.py`,
`ContentPipelineFlow` over `ContentPipelineState`).

The pipeline takes a topic and a content type, researches the topic,
generates a content artifact (blog post, tweet, or LinkedIn post),
scores it, and regenerates it until the score reaches the threshold 8.
External collaborators (the research agent, the generation LLM calls,
the SeoCrew and ViralityCrew scorers) are opaque: the embedding keeps
their outputs as parameters of the step relation, while the control
flow, routing, validation and state mutation are translated faithfully
from the source.
-/

namespace ContentPipeline

/-- `BlogPost` pydantic model: title, subtitle, sections. -/
structure BlogPost where
  title : String
  subtitle : String
  sections : List String
deriving DecidableEq, Repr

/-- `Tweet` pydantic model: content, hashtags. -/
structure Tweet where
  content : String
  hashtags : String
deriving DecidableEq, Repr

/-- `LinkedInPost` pydantic model: hook, content, call_to_action. -/
structure LinkedInPost where
  hook : String
  content : String
  call_to_action : String
deriving DecidableEq, Repr

/-- `Score` pydantic model: an integer score (0-10 scale) and a reason. -/
structure Score where
  score : Int := 0
  reason : String := ""
deriving DecidableEq, Repr

/-- `ContentPipelineState`: the single mutable record shared by every
flow step.  Field defaults mirror the pydantic defaults. -/
structure ContentPipelineState where
  content_type : String := ""
  topic : String := ""
  max_length : Int := 0
  research : String := ""
  score : Option Score := none
  blog_post : Option BlogPost := none
  tweet : Option Tweet := none
  linkedin_post : Option LinkedInPost := none
deriving DecidableEq, Repr

/-- The two `ValueError`s raised by `init_content_pipeline`:
`invalidContentType` is `ValueError("The content type is wrong.")` and
`emptyTopic` is `ValueError("The topic can not be blank.")`. -/
inductive PipelineError where
  | invalidContentType
  | emptyTopic
deriving DecidableEq, Repr

/-- `init_content_pipeline` (the `@start` step): validates
`content_type` membership in `["tweet", "blog", "linkedin"]`, then
non-emptiness of `topic`, then writes the type-specific `max_length`.
The final `.ok s` arm mirrors the fall-through of the python
`if/elif` chain, which is unreachable after the membership check. -/
def init_content_pipeline (s : ContentPipelineState) :
    Except PipelineError ContentPipelineState :=
  if s.content_type ∉ ["tweet", "blog", "linkedin"] then
    .error .invalidContentType
  else if s.topic = "" then
    .error .emptyTopic
  else if s.content_type = "tweet" then
    .ok { s with max_length := 150 }
  else if s.content_type = "blog" then
    .ok { s with max_length := 800 }
  else if s.content_type = "linkedin" then
    .ok { s with max_length := 500 }
  else
    .ok s

/-- `conduct_research_router` (the `@router(conduct_research)` step):
returns the generation route name for the current content type, with
the python `else` branch falling back to `"make_linkedin_post"` for
any non-blog, non-tweet value. -/
def conduct_research_router (s : ContentPipelineState) : String :=
  if s.content_type = "blog" then
    "make_blog"
  else if s.content_type = "tweet" then
    "make_tweet"
  else
    "make_linkedin_post"

/-- `score_router` (the `@router(or_(check_seo, check_virality))` step).
The python code dereferences `self.state.score.score` without a `None`
guard; the embedding returns `none` exactly when that dereference would
raise `AttributeError`, and otherwise the route string the code returns. -/
def score_router (s : ContentPipelineState) : Option String :=
  match s.score with
  | none => none
  | some sc =>
    if sc.score ≥ 8 then
      some "check_passed"
    else if s.content_type = "blog" then
      some "remake_blog"
    else if s.content_type = "linkedin" then
      some "remake_linkedin_post"
    else
      some "remake_tweet"

/-- Quote a string as a JSON string literal (pydantic escaping of the
interior is not modelled; none of the proved properties depend on it). -/
def jsonStr (s : String) : String := "\"" ++ s ++ "\""

/-- `BlogPost.model_dump_json`: the pydantic JSON serialization of a
blog post. -/
def BlogPost.model_dump_json (b : BlogPost) : String :=
  "\x7b\"title\":" ++ jsonStr b.title ++ ",\"subtitle\":" ++ jsonStr b.subtitle
    ++ ",\"sections\":[" ++ String.intercalate "," (b.sections.map jsonStr) ++ "]\x7d"

/-- `Tweet.model_dump_json`: the pydantic JSON serialization of a tweet. -/
def Tweet.model_dump_json (t : Tweet) : String :=
  "\x7b\"content\":" ++ jsonStr t.content ++ ",\"hashtags\":" ++ jsonStr t.hashtags ++ "\x7d"

/-- `LinkedInPost.model_dump_json`: the pydantic JSON serialization of a
LinkedIn post. -/
def LinkedInPost.model_dump_json (p : LinkedInPost) : String :=
  "\x7b\"hook\":" ++ jsonStr p.hook ++ ",\"content\":" ++ jsonStr p.content
    ++ ",\"call_to_action\":" ++ jsonStr p.call_to_action ++ "\x7d"

/-- The f-string `handle_make_blog` builds on its first-generation
branch (`blog_post is None`): a function of `topic` and `research` only. -/
def blog_create_prompt (topic research : String) : String :=
  "\n            Make a blog post with SEO practices on the topic " ++ topic
    ++ " using the following research:\n\n            <research>\n            ================\n            "
    ++ research ++ "\n            ================\n            </research>\n            "

/-- The f-string `handle_make_blog` builds on its regeneration branch:
interpolates the topic, the previous score reason, the previous blog
post serialized with `model_dump_json`, and the research. -/
def blog_improve_prompt (topic reason blogJson research : String) : String :=
  "\n            You wrote this blog post on " ++ topic
    ++ ", but it does not have a good SEO score because of " ++ reason
    ++ "\n\n            Improve it.\n\n            <blog post>\n            " ++ blogJson
    ++ "\n            </blog post>\n\n            Use the following research.\n\n            <research>\n            ================\n            "
    ++ research ++ "\n            ================\n            </research>\n            "

/-- The f-string `handle_make_tweet` builds on its first-generation
branch (`tweet is None`): a function of `topic` and `research` only. -/
def tweet_create_prompt (topic research : String) : String :=
  "\n            Make a tweet that can go viral on the topic " ++ topic
    ++ " using the following research:\n\n            <research>\n            ================\n            "
    ++ research ++ "\n            ================\n            </research>\n            "

/-- The f-string `handle_make_tweet` builds on its regeneration branch:
interpolates the topic, the previous score reason, the previous tweet
serialized with `model_dump_json`, and the research. -/
def tweet_improve_prompt (topic reason tweetJson research : String) : String :=
  "\n            You wrote this tweet on " ++ topic
    ++ ", but it does not have a good virality score because of " ++ reason
    ++ "\n\n            Improve it.\n\n            <tweet>\n            " ++ tweetJson
    ++ "\n            </tweet>\n\n            Use the following research.\n\n            <research>\n            ================\n            "
    ++ research ++ "\n            ================\n            </research>\n            "

/-- The f-string `handle_make_linkedin_post` builds on its
first-generation branch (`linkedin_post is None`). -/
def linkedin_create_prompt (topic research : String) : String :=
  "\n            Make a linkedin post that can go viral on the topic " ++ topic
    ++ " using the following research:\n\n            <research>\n            ================\n            "
    ++ research ++ "\n            ================\n            </research>\n            "

/-- The f-string `handle_make_linkedin_post` builds on its regeneration
branch. -/
def linkedin_improve_prompt (topic reason postJson research : String) : String :=
  "\n            You wrote this linkedin post on " ++ topic
    ++ ", but it does not have a good virality score because of " ++ reason
    ++ "\n\n            Improve it.\n\n            <linkedin_post>\n            " ++ postJson
    ++ "\n            </linkedin_post>\n\n            Use the following research.\n\n            <research>\n            ================\n            "
    ++ research ++ "\n            ================\n            </research>\n            "

/-- The request `handle_make_blog` sends to its LLM collaborator, as a
function of the current state.  `none` models the `AttributeError` the
python code would raise on the regeneration branch when
`self.state.score` is `None` (it reads `self.state.score.reason`). -/
def handle_make_blog_request (s : ContentPipelineState) : Option String :=
  match s.blog_post with
  | none => some (blog_create_prompt s.topic s.research)
  | some bp =>
    match s.score with
    | none => none
    | some sc =>
      some (blog_improve_prompt s.topic sc.reason bp.model_dump_json s.research)

/-- The request `handle_make_tweet` sends to its LLM collaborator. -/
def handle_make_tweet_request (s : ContentPipelineState) : Option String :=
  match s.tweet with
  | none => some (tweet_create_prompt s.topic s.research)
  | some t =>
    match s.score with
    | none => none
    | some sc =>
      some (tweet_improve_prompt s.topic sc.reason t.model_dump_json s.research)

/-- The request `handle_make_linkedin_post` sends to its LLM collaborator. -/
def handle_make_linkedin_post_request (s : ContentPipelineState) : Option String :=
  match s.linkedin_post with
  | none => some (linkedin_create_prompt s.topic s.research)
  | some p =>
    match s.score with
    | none => none
    | some sc =>
      some (linkedin_improve_prompt s.topic sc.reason p.model_dump_json s.research)

/-- The state mutation of `handle_make_blog`: the parsed collaborator
output overwrites `self.state.blog_post` wholesale. -/
def handle_make_blog_update (s : ContentPipelineState) (bp : BlogPost) :
    ContentPipelineState :=
  { s with blog_post := some bp }

/-- The state mutation of `handle_make_tweet`. -/
def handle_make_tweet_update (s : ContentPipelineState) (t : Tweet) :
    ContentPipelineState :=
  { s with tweet := some t }

/-- The state mutation of `handle_make_linkedin_post`. -/
def handle_make_linkedin_post_update (s : ContentPipelineState) (p : LinkedInPost) :
    ContentPipelineState :=
  { s with linkedin_post := some p }

/-- A value in the `inputs` dictionary handed to a scoring crew.
`check_seo` passes strings only; `check_virality` passes the tweet or
linkedin pydantic object itself (possibly `None`), not its
serialization. -/
inductive InputValue where
  | str (v : String)
  | tweetObj (v : Option Tweet)
  | linkedinObj (v : Option LinkedInPost)
deriving DecidableEq, Repr

/-- The `inputs` dictionary `check_seo` hands to `SeoCrew().crew().kickoff`:
the topic and the serialized blog post.  `none` models the
`AttributeError` raised when `self.state.blog_post` is `None` (the code
calls `self.state.blog_post.model_dump_json()`). -/
def check_seo_inputs (s : ContentPipelineState) :
    Option (List (String × InputValue)) :=
  match s.blog_post with
  | none => none
  | some bp =>
    some [("topic", .str s.topic), ("blog_post", .str bp.model_dump_json)]

/-- The `inputs` dictionary `check_virality` hands to
`ViralityCrew().crew().kickoff`: the topic, the content type, and the
tweet object when `content_type == "tweet"`, the linkedin object
otherwise. -/
def check_virality_inputs (s : ContentPipelineState) :
    List (String × InputValue) :=
  [("topic", .str s.topic),
   ("content_type", .str s.content_type),
   ("content",
     if s.content_type = "tweet" then .tweetObj s.tweet
     else .linkedinObj s.linkedin_post)]

/-- The state mutation shared by `check_seo` and `check_virality`: the
crew result overwrites `self.state.score`. -/
def check_score_update (s : ContentPipelineState) (sc : Score) :
    ContentPipelineState :=
  { s with score := some sc }

/-- Scheduler configuration: which flow method has just completed, or
which router label has just been emitted.  This mirrors the decorator
wiring: `@start`, `@listen`, `@router`, `or_`. -/
inductive Conf where
  | atStart
  | afterInit
  | afterResearch
  | emitted (label : String)
  | afterMakeBlog
  | afterMakeTweet
  | afterMakeLinkedin
  | afterCheckSeo
  | afterCheckVirality
  | finished
deriving DecidableEq, Repr

/-- The state `flow.kickoff(inputs={...})` starts from: the two supplied
fields, every other field at its pydantic default. -/
def initialState (ct topic : String) : ContentPipelineState :=
  { content_type := ct, topic := topic }

/-- One scheduler step of `ContentPipelineFlow`.  Collaborator outputs
(the research text `r`, parsed artifacts `bp`/`t`/`p`, crew scores `sc`)
are free parameters: the engine treats those calls as opaque.
The decorator wiring translated here:
* `@start() init_content_pipeline`, stepping only on successful validation;
* `@listen(init_content_pipeline) conduct_research`, storing the research text;
* `@router(conduct_research) conduct_research_router`, emitting its label;
* `@listen(or_("make_blog", "remake_blog")) handle_make_blog` and the
  tweet/linkedin analogues, overwriting the matching artifact field;
* `@listen(handle_make_blog) check_seo` (requires a present blog post,
  which it serializes) and
  `@listen(or_(handle_make_tweet, handle_make_linkedin_post)) check_virality`,
  each overwriting `score`;
* `@router(or_(check_seo, check_virality)) score_router`, emitting its label
  (stepping only when the `score.score` dereference succeeds);
* `@listen("check_passed") finalize_content`. -/
inductive Step : Conf × ContentPipelineState → Conf × ContentPipelineState → Prop where
  | run_init (s s' : ContentPipelineState)
      (h : init_content_pipeline s = .ok s') :
      Step (.atStart, s) (.afterInit, s')
  | run_research (s : ContentPipelineState) (r : String) :
      Step (.afterInit, s) (.afterResearch, { s with research := r })
  | run_type_routing (s : ContentPipelineState) :
      Step (.afterResearch, s) (.emitted (conduct_research_router s), s)
  | run_make_blog (s : ContentPipelineState) (l : String) (bp : BlogPost)
      (h : l = "make_blog" ∨ l = "remake_blog") :
      Step (.emitted l, s) (.afterMakeBlog, handle_make_blog_update s bp)
  | run_make_tweet (s : ContentPipelineState) (l : String) (t : Tweet)
      (h : l = "make_tweet" ∨ l = "remake_tweet") :
      Step (.emitted l, s) (.afterMakeTweet, handle_make_tweet_update s t)
  | run_make_linkedin (s : ContentPipelineState) (l : String) (p : LinkedInPost)
      (h : l = "make_linkedin_post" ∨ l = "remake_linkedin_post") :
      Step (.emitted l, s) (.afterMakeLinkedin, handle_make_linkedin_post_update s p)
  | run_check_seo (s : ContentPipelineState) (sc : Score)
      (h : s.blog_post.isSome) :
      Step (.afterMakeBlog, s) (.afterCheckSeo, check_score_update s sc)
  | run_check_virality (c : Conf) (s : ContentPipelineState) (sc : Score)
      (hc : c = .afterMakeTweet ∨ c = .afterMakeLinkedin) :
      Step (c, s) (.afterCheckVirality, check_score_update s sc)
  | run_score_routing (c : Conf) (s : ContentPipelineState) (l : String)
      (hc : c = .afterCheckSeo ∨ c = .afterCheckVirality)
      (h : score_router s = some l) :
      Step (c, s) (.emitted l, s)
  | run_finalize (s : ContentPipelineState) :
      Step (.emitted "check_passed", s) (.finished, s)

/-- Reachability of a configuration from another by scheduler steps. -/
def Reach (x y : Conf × ContentPipelineState) : Prop :=
  Relation.ReflTransGen Step x y

/-- Weight used to count generation-step firings along a run. -/
def genWeight : Conf → Nat
  | .afterMakeBlog => 1
  | .afterMakeTweet => 1
  | .afterMakeLinkedin => 1
  | _ => 0

/-- A scheduler step whose scoring collaborator (if it ran) returned a
value below the threshold 8: either the step left `score` untouched, or
the newly written score is `< 8`. -/
def LowStep (x y : Conf × ContentPipelineState) : Prop :=
  Step x y ∧ ∀ sc : Score, y.2.score = some sc → x.2.score = some sc ∨ sc.score < 8

/-- Reachability under `LowStep`, counting generation-step firings. -/
inductive LowReach : Conf × ContentPipelineState → Nat →
    Conf × ContentPipelineState → Prop where
  | refl (x : Conf × ContentPipelineState) : LowReach x 0 x
  | tail {x y z : Conf × ContentPipelineState} {n : Nat}
      (h1 : LowReach x n y) (h2 : LowStep y z) :
      LowReach x (n + genWeight z.1) z

/-- The three content types accepted by `init_content_pipeline`. -/
def validType (ct : String) : Prop :=
  ct = "tweet" ∨ ct = "blog" ∨ ct = "linkedin"

instance (ct : String) : Decidable (validType ct) := by
  unfold validType; infer_instance

/-- A successful `init_content_pipeline` implies the content type was
valid, and changes no field except `max_length`. -/
theorem init_ok_fields {s s' : ContentPipelineState}
    (h : init_content_pipeline s = .ok s') :
    validType s.content_type ∧ s'.content_type = s.content_type ∧
    s'.topic = s.topic ∧ s'.research = s.research ∧ s'.score = s.score ∧
    s'.blog_post = s.blog_post ∧ s'.tweet = s.tweet ∧
    s'.linkedin_post = s.linkedin_post := by
  rw [init_content_pipeline] at h
  split at h
  · cases h
  · next hmem =>
    have hv : validType s.content_type := by
      simpa [validType] using not_not.mp hmem
    split at h
    · cases h
    · split at h
      · injection h with h2
        subst h2
        exact ⟨hv, rfl, rfl, rfl, rfl, rfl, rfl, rfl⟩
      · split at h
        · injection h with h2
          subst h2
          exact ⟨hv, rfl, rfl, rfl, rfl, rfl, rfl, rfl⟩
        · split at h
          · injection h with h2
            subst h2
            exact ⟨hv, rfl, rfl, rfl, rfl, rfl, rfl, rfl⟩
          · injection h with h2
            subst h2
            exact ⟨hv, rfl, rfl, rfl, rfl, rfl, rfl, rfl⟩

/-- Case analysis of `conduct_research_router`. -/
theorem conduct_research_router_spec (s : ContentPipelineState) :
    (s.content_type = "blog" ∧ conduct_research_router s = "make_blog") ∨
    (s.content_type = "tweet" ∧ conduct_research_router s = "make_tweet") ∨
    (s.content_type ≠ "blog" ∧ s.content_type ≠ "tweet" ∧
      conduct_research_router s = "make_linkedin_post") := by
  unfold conduct_research_router
  split
  · next hb => exact Or.inl ⟨hb, rfl⟩
  · next hb =>
    split
    · next ht => exact Or.inr (Or.inl ⟨ht, rfl⟩)
    · next ht => exact Or.inr (Or.inr ⟨hb, ht, rfl⟩)

/-- Case analysis of `score_router` when the score is populated. -/
theorem score_router_spec {s : ContentPipelineState} {sc : Score} {l : String}
    (hsc : s.score = some sc) (h : score_router s = some l) :
    (sc.score ≥ 8 ∧ l = "check_passed") ∨
    (sc.score < 8 ∧ s.content_type = "blog" ∧ l = "remake_blog") ∨
    (sc.score < 8 ∧ s.content_type = "linkedin" ∧ l = "remake_linkedin_post") ∨
    (sc.score < 8 ∧ s.content_type ≠ "blog" ∧ s.content_type ≠ "linkedin" ∧
      l = "remake_tweet") := by
  unfold score_router at h
  simp only [hsc] at h
  split at h
  · next hge =>
    injection h with h2
    exact Or.inl ⟨hge, h2.symm⟩
  · next hge =>
    have hlt : sc.score < 8 := by omega
    split at h
    · next hb =>
      injection h with h2
      exact Or.inr (Or.inl ⟨hlt, hb, h2.symm⟩)
    · next hb =>
      split at h
      · next hl =>
        injection h with h2
        exact Or.inr (Or.inr (Or.inl ⟨hlt, hl, h2.symm⟩))
      · next hl =>
        injection h with h2
        exact Or.inr (Or.inr (Or.inr ⟨hlt, hb, hl, h2.symm⟩))

/-- The run invariant: the content type is valid past validation and
never changes; every populated artifact variant, every generation
route label, every generation configuration and every scoring
configuration matches the content type; and the score is populated
whenever the score routing runs. -/
structure Inv (c : Conf) (s : ContentPipelineState) : Prop where
  valid : c ≠ .atStart → validType s.content_type
  blogMatch : s.blog_post.isSome → s.content_type = "blog"
  tweetMatch : s.tweet.isSome → s.content_type = "tweet"
  linkMatch : s.linkedin_post.isSome → s.content_type = "linkedin"
  labelBlog : ∀ l, c = .emitted l → l = "make_blog" ∨ l = "remake_blog" →
    s.content_type = "blog"
  labelTweet : ∀ l, c = .emitted l → l = "make_tweet" ∨ l = "remake_tweet" →
    s.content_type = "tweet"
  labelLink : ∀ l, c = .emitted l →
    l = "make_linkedin_post" ∨ l = "remake_linkedin_post" →
    s.content_type = "linkedin"
  confBlog : c = .afterMakeBlog → s.content_type = "blog"
  confTweet : c = .afterMakeTweet → s.content_type = "tweet"
  confLink : c = .afterMakeLinkedin → s.content_type = "linkedin"
  confSeo : c = .afterCheckSeo → s.content_type = "blog"
  confVir : c = .afterCheckVirality →
    s.content_type = "tweet" ∨ s.content_type = "linkedin"
  scoreSome : c = .afterCheckSeo ∨ c = .afterCheckVirality → s.score.isSome

/-- The invariant holds at the start configuration. -/
theorem inv_start (ct topic : String) : Inv .atStart (initialState ct topic) where
  valid h := absurd rfl h
  blogMatch h := by simp [initialState] at h
  tweetMatch h := by simp [initialState] at h
  linkMatch h := by simp [initialState] at h
  labelBlog := nofun
  labelTweet := nofun
  labelLink := nofun
  confBlog := nofun
  confTweet := nofun
  confLink := nofun
  confSeo := nofun
  confVir := nofun
  scoreSome h := by rcases h with h | h <;> cases h

/-- The invariant is preserved by every scheduler step. -/
theorem inv_step {x y : Conf × ContentPipelineState}
    (hs : Step x y) (hI : Inv x.1 x.2) : Inv y.1 y.2 := by
  cases hs with
  | run_init s s' h =>
    obtain ⟨hv, hct, -, -, hsc, hbp, htw, hlp⟩ := init_ok_fields h
    exact {
      valid := fun _ => by rw [hct]; exact hv
      blogMatch := fun hb => by
        rw [hct]; exact hI.blogMatch (by rwa [hbp] at hb)
      tweetMatch := fun ht => by
        rw [hct]; exact hI.tweetMatch (by rwa [htw] at ht)
      linkMatch := fun hl => by
        rw [hct]; exact hI.linkMatch (by rwa [hlp] at hl)
      labelBlog := nofun
      labelTweet := nofun
      labelLink := nofun
      confBlog := nofun
      confTweet := nofun
      confLink := nofun
      confSeo := nofun
      confVir := nofun
      scoreSome := fun h => by rcases h with h | h <;> cases h }
  | run_research s r =>
    exact {
      valid := fun _ => hI.valid nofun
      blogMatch := hI.blogMatch
      tweetMatch := hI.tweetMatch
      linkMatch := hI.linkMatch
      labelBlog := nofun
      labelTweet := nofun
      labelLink := nofun
      confBlog := nofun
      confTweet := nofun
      confLink := nofun
      confSeo := nofun
      confVir := nofun
      scoreSome := fun h => by rcases h with h | h <;> cases h }
  | run_type_routing s =>
    have hv : validType s.content_type := hI.valid nofun
    exact {
      valid := fun _ => hv
      blogMatch := hI.blogMatch
      tweetMatch := hI.tweetMatch
      linkMatch := hI.linkMatch
      labelBlog := by
        intro l hl hcase
        injection hl with hl2
        subst hl2
        rcases conduct_research_router_spec s with ⟨hb, he⟩ | ⟨ht, he⟩ | ⟨hb, ht, he⟩ <;>
          rw [he] at hcase
        · exact hb
        · exact absurd hcase (by decide)
        · exact absurd hcase (by decide)
      labelTweet := by
        intro l hl hcase
        injection hl with hl2
        subst hl2
        rcases conduct_research_router_spec s with ⟨hb, he⟩ | ⟨ht, he⟩ | ⟨hb, ht, he⟩ <;>
          rw [he] at hcase
        · exact absurd hcase (by decide)
        · exact ht
        · exact absurd hcase (by decide)
      labelLink := by
        intro l hl hcase
        injection hl with hl2
        subst hl2
        rcases conduct_research_router_spec s with ⟨hb, he⟩ | ⟨ht, he⟩ | ⟨hb, ht, he⟩ <;>
          rw [he] at hcase
        · exact absurd hcase (by decide)
        · exact absurd hcase (by decide)
        · rcases hv with h | h | h
          · exact absurd h ht
          · exact absurd h hb
          · exact h
      confBlog := nofun
      confTweet := nofun
      confLink := nofun
      confSeo := nofun
      confVir := nofun
      scoreSome := fun h => by rcases h with h | h <;> cases h }
  | run_make_blog s l bp h =>
    have hctb : s.content_type = "blog" := hI.labelBlog l rfl h
    exact {
      valid := fun _ => hI.valid nofun
      blogMatch := fun _ => hctb
      tweetMatch := hI.tweetMatch
      linkMatch := hI.linkMatch
      labelBlog := nofun
      labelTweet := nofun
      labelLink := nofun
      confBlog := fun _ => hctb
      confTweet := nofun
      confLink := nofun
      confSeo := nofun
      confVir := nofun
      scoreSome := fun h => by rcases h with h | h <;> cases h }
  | run_make_tweet s l t h =>
    have hctt : s.content_type = "tweet" := hI.labelTweet l rfl h
    exact {
      valid := fun _ => hI.valid nofun
      blogMatch := hI.blogMatch
      tweetMatch := fun _ => hctt
      linkMatch := hI.linkMatch
      labelBlog := nofun
      labelTweet := nofun
      labelLink := nofun
      confBlog := nofun
      confTweet := fun _ => hctt
      confLink := nofun
      confSeo := nofun
      confVir := nofun
      scoreSome := fun h => by rcases h with h | h <;> cases h }
  | run_make_linkedin s l p h =>
    have hctl : s.content_type = "linkedin" := hI.labelLink l rfl h
    exact {
      valid := fun _ => hI.valid nofun
      blogMatch := hI.blogMatch
      tweetMatch := hI.tweetMatch
      linkMatch := fun _ => hctl
      labelBlog := nofun
      labelTweet := nofun
      labelLink := nofun
      confBlog := nofun
      confTweet := nofun
      confLink := fun _ => hctl
      confSeo := nofun
      confVir := nofun
      scoreSome := fun h => by rcases h with h | h <;> cases h }
  | run_check_seo s sc h =>
    have hctb : s.content_type = "blog" := hI.confBlog rfl
    exact {
      valid := fun _ => hI.valid nofun
      blogMatch := fun _ => hctb
      tweetMatch := hI.tweetMatch
      linkMatch := hI.linkMatch
      labelBlog := nofun
      labelTweet := nofun
      labelLink := nofun
      confBlog := nofun
      confTweet := nofun
      confLink := nofun
      confSeo := fun _ => hctb
      confVir := nofun
      scoreSome := fun _ => rfl }
  | run_check_virality c s sc hc =>
    rcases hc with rfl | rfl
    · have hctt : s.content_type = "tweet" := hI.confTweet rfl
      exact {
        valid := fun _ => hI.valid nofun
        blogMatch := hI.blogMatch
        tweetMatch := hI.tweetMatch
        linkMatch := hI.linkMatch
        labelBlog := nofun
        labelTweet := nofun
        labelLink := nofun
        confBlog := nofun
        confTweet := nofun
        confLink := nofun
        confSeo := nofun
        confVir := fun _ => Or.inl hctt
        scoreSome := fun _ => rfl }
    · have hctl : s.content_type = "linkedin" := hI.confLink rfl
      exact {
        valid := fun _ => hI.valid nofun
        blogMatch := hI.blogMatch
        tweetMatch := hI.tweetMatch
        linkMatch := hI.linkMatch
        labelBlog := nofun
        labelTweet := nofun
        labelLink := nofun
        confBlog := nofun
        confTweet := nofun
        confLink := nofun
        confSeo := nofun
        confVir := fun _ => Or.inr hctl
        scoreSome := fun _ => rfl }
  | run_score_routing c s l hc h =>
    rcases hc with rfl | rfl
    · have hctb : s.content_type = "blog" := hI.confSeo rfl
      obtain ⟨sc, hsc⟩ :=
        Option.isSome_iff_exists.mp (hI.scoreSome (Or.inl rfl))
      rcases score_router_spec hsc h with
        ⟨-, rfl⟩ | ⟨-, hb, rfl⟩ | ⟨-, hl, rfl⟩ | ⟨-, hb, hl, rfl⟩
      · exact {
          valid := fun _ => hI.valid nofun
          blogMatch := hI.blogMatch
          tweetMatch := hI.tweetMatch
          linkMatch := hI.linkMatch
          labelBlog := fun _ _ _ => hctb
          labelTweet := by
            intro l' hl' hcase
            injection hl' with he
            subst he
            exact absurd hcase (by decide)
          labelLink := by
            intro l' hl' hcase
            injection hl' with he
            subst he
            exact absurd hcase (by decide)
          confBlog := nofun
          confTweet := nofun
          confLink := nofun
          confSeo := nofun
          confVir := nofun
          scoreSome := fun h => by rcases h with h | h <;> cases h }
      · exact {
          valid := fun _ => hI.valid nofun
          blogMatch := hI.blogMatch
          tweetMatch := hI.tweetMatch
          linkMatch := hI.linkMatch
          labelBlog := fun _ _ _ => hctb
          labelTweet := by
            intro l' hl' hcase
            injection hl' with he
            subst he
            exact absurd hcase (by decide)
          labelLink := by
            intro l' hl' hcase
            injection hl' with he
            subst he
            exact absurd hcase (by decide)
          confBlog := nofun
          confTweet := nofun
          confLink := nofun
          confSeo := nofun
          confVir := nofun
          scoreSome := fun h => by rcases h with h | h <;> cases h }
      · rw [hctb] at hl
        exact absurd hl (by decide)
      · exact absurd hctb hb
    · have hctv : s.content_type = "tweet" ∨ s.content_type = "linkedin" :=
        hI.confVir rfl
      obtain ⟨sc, hsc⟩ :=
        Option.isSome_iff_exists.mp (hI.scoreSome (Or.inr rfl))
      rcases score_router_spec hsc h with
        ⟨-, rfl⟩ | ⟨-, hb, rfl⟩ | ⟨-, hl, rfl⟩ | ⟨-, hb, hl, rfl⟩
      · exact {
          valid := fun _ => hI.valid nofun
          blogMatch := hI.blogMatch
          tweetMatch := hI.tweetMatch
          linkMatch := hI.linkMatch
          labelBlog := by
            intro l' hl' hcase
            injection hl' with he
            subst he
            exact absurd hcase (by decide)
          labelTweet := by
            intro l' hl' hcase
            injection hl' with he
            subst he
            exact absurd hcase (by decide)
          labelLink := by
            intro l' hl' hcase
            injection hl' with he
            subst he
            exact absurd hcase (by decide)
          confBlog := nofun
          confTweet := nofun
          confLink := nofun
          confSeo := nofun
          confVir := nofun
          scoreSome := fun h => by rcases h with h | h <;> cases h }
      · rcases hctv with hct | hct <;> rw [hct] at hb <;>
          exact absurd hb (by decide)
      · exact {
          valid := fun _ => hI.valid nofun
          blogMatch := hI.blogMatch
          tweetMatch := hI.tweetMatch
          linkMatch := hI.linkMatch
          labelBlog := by
            intro l' hl' hcase
            injection hl' with he
            subst he
            exact absurd hcase (by decide)
          labelTweet := by
            intro l' hl' hcase
            injection hl' with he
            subst he
            exact absurd hcase (by decide)
          labelLink := fun _ _ _ => hl
          confBlog := nofun
          confTweet := nofun
          confLink := nofun
          confSeo := nofun
          confVir := nofun
          scoreSome := fun h => by rcases h with h | h <;> cases h }
      · have hctt : s.content_type = "tweet" := by
          rcases hctv with hct | hct
          · exact hct
          · exact absurd hct hl
        exact {
          valid := fun _ => hI.valid nofun
          blogMatch := hI.blogMatch
          tweetMatch := hI.tweetMatch
          linkMatch := hI.linkMatch
          labelBlog := by
            intro l' hl' hcase
            injection hl' with he
            subst he
            exact absurd hcase (by decide)
          labelTweet := fun _ _ _ => hctt
          labelLink := by
            intro l' hl' hcase
            injection hl' with he
            subst he
            exact absurd hcase (by decide)
          confBlog := nofun
          confTweet := nofun
          confLink := nofun
          confSeo := nofun
          confVir := nofun
          scoreSome := fun h => by rcases h with h | h <;> cases h }
  | run_finalize s =>
    exact {
      valid := fun _ => hI.valid nofun
      blogMatch := hI.blogMatch
      tweetMatch := hI.tweetMatch
      linkMatch := hI.linkMatch
      labelBlog := nofun
      labelTweet := nofun
      labelLink := nofun
      confBlog := nofun
      confTweet := nofun
      confLink := nofun
      confSeo := nofun
      confVir := nofun
      scoreSome := fun h => by rcases h with h | h <;> cases h }

/-- Every configuration reachable from a fresh kickoff satisfies the
invariant. -/
theorem reach_inv {ct topic : String} {y : Conf × ContentPipelineState}
    (h : Reach (.atStart, initialState ct topic) y) : Inv y.1 y.2 := by
  induction h with
  | refl => exact inv_start ct topic
  | tail _ hstep ih => exact inv_step hstep ih

/-- A concrete parsed blog post used to instantiate the generation
collaborator in demonstration runs. -/
def demoPost : BlogPost :=
  { title := "t", subtitle := "s", sections := ["a"] }

/-- A concrete below-threshold score used to instantiate the scoring
collaborator in demonstration runs. -/
def lowScore : Score := { score := 5, reason := "too generic" }

/-- The kickoff state of the demonstration run (the inputs of the
`flow.kickoff` call at the bottom of the source file). -/
def demoStart : ContentPipelineState := initialState "blog" "AI Dog Training"

/-- Demonstration run, after `init_content_pipeline`. -/
def demoS1 : ContentPipelineState := { demoStart with max_length := 800 }

/-- Demonstration run, after `conduct_research`. -/
def demoS2 : ContentPipelineState := { demoS1 with research := "r" }

/-- Demonstration run, after `handle_make_blog`. -/
def demoS3 : ContentPipelineState := { demoS2 with blog_post := some demoPost }

/-- Demonstration run, after `check_seo`. -/
def demoS4 : ContentPipelineState := { demoS3 with score := some lowScore }

theorem demo_step_init : Step (.atStart, demoStart) (.afterInit, demoS1) :=
  Step.run_init _ _ rfl

theorem demo_step_research : Step (.afterInit, demoS1) (.afterResearch, demoS2) :=
  Step.run_research _ _

theorem demo_step_route_type :
    Step (.afterResearch, demoS2) (.emitted "make_blog", demoS2) := by
  have h := Step.run_type_routing demoS2
  rwa [show conduct_research_router demoS2 = "make_blog" from by decide] at h

theorem demo_step_make :
    Step (.emitted "make_blog", demoS2) (.afterMakeBlog, demoS3) :=
  Step.run_make_blog _ _ demoPost (Or.inl rfl)

theorem demo_step_check :
    Step (.afterMakeBlog, demoS3) (.afterCheckSeo, demoS4) :=
  Step.run_check_seo _ lowScore (by decide)

theorem demo_step_route_score :
    Step (.afterCheckSeo, demoS4) (.emitted "remake_blog", demoS4) :=
  Step.run_score_routing _ _ _ (Or.inl rfl) (by decide)

theorem demo_step_remake :
    Step (.emitted "remake_blog", demoS4) (.afterMakeBlog, demoS4) := by
  have h := Step.run_make_blog demoS4 "remake_blog" demoPost (Or.inr rfl)
  have he : handle_make_blog_update demoS4 demoPost = demoS4 := by decide
  rwa [he] at h

theorem demo_step_recheck :
    Step (.afterMakeBlog, demoS4) (.afterCheckSeo, demoS4) := by
  have h := Step.run_check_seo demoS4 lowScore (by decide)
  have he : check_score_update demoS4 lowScore = demoS4 := by decide
  rwa [he] at h

/-- The demonstration run reaches the configuration in which
`score_router` fires after `check_seo`. -/
theorem demo_reach_check : Reach (.atStart, demoStart) (.afterCheckSeo, demoS4) :=
  .head demo_step_init (.head demo_step_research (.head demo_step_route_type
    (.head demo_step_make (.head demo_step_check .refl))))

/-- Every step of the demonstration run is a `LowStep`: the only score
ever written is `lowScore`, whose value 5 is below 8. -/
theorem low_cond_none {x : Conf × ContentPipelineState}
    {c : Conf} {s : ContentPipelineState} (hs : s.score = none) :
    ∀ sc : Score, ((c, s) : Conf × ContentPipelineState).2.score = some sc →
      x.2.score = some sc ∨ sc.score < 8 := by
  intro sc hsc
  rw [hs] at hsc
  cases hsc

theorem low_reach_base :
    LowReach (.atStart, demoStart) 1 (.afterCheckSeo, demoS4) := by
  have t1 : LowReach (.atStart, demoStart) 0 (.afterInit, demoS1) :=
    LowReach.tail (.refl _) ⟨demo_step_init, low_cond_none rfl⟩
  have t2 : LowReach (.atStart, demoStart) 0 (.afterResearch, demoS2) :=
    LowReach.tail t1 ⟨demo_step_research, low_cond_none rfl⟩
  have t3 : LowReach (.atStart, demoStart) 0 (.emitted "make_blog", demoS2) :=
    LowReach.tail t2 ⟨demo_step_route_type, fun _ hsc => Or.inl hsc⟩
  have t4 : LowReach (.atStart, demoStart) 1 (.afterMakeBlog, demoS3) :=
    LowReach.tail t3 ⟨demo_step_make, low_cond_none rfl⟩
  exact LowReach.tail t4 ⟨demo_step_check, fun sc hsc => Or.inr (by
    injection hsc with h2
    subst h2
    decide)⟩

/-- The regeneration cycle extends any low-scored run by one more
generation firing. -/
theorem low_reach_loop (n : Nat) :
    LowReach (.atStart, demoStart) (n + 1) (.afterCheckSeo, demoS4) := by
  induction n with
  | zero => exact low_reach_base
  | succ n ih =>
    have g1 : LowReach (.atStart, demoStart) (n + 1) (.emitted "remake_blog", demoS4) :=
      LowReach.tail ih ⟨demo_step_route_score, fun _ hsc => Or.inl hsc⟩
    have g2 : LowReach (.atStart, demoStart) (n + 2) (.afterMakeBlog, demoS4) :=
      LowReach.tail g1 ⟨demo_step_remake, fun _ hsc => Or.inl hsc⟩
    exact LowReach.tail g2 ⟨demo_step_recheck, fun _ hsc => Or.inl hsc⟩

/-- Invariant of low-scored runs: every populated score is below 8, and
neither the `"check_passed"` route nor the terminal configuration has
been reached. -/
def LowInv (x : Conf × ContentPipelineState) : Prop :=
  (∀ sc : Score, x.2.score = some sc → sc.score < 8) ∧
  x.1 ≠ .emitted "check_passed" ∧ x.1 ≠ .finished

theorem low_inv_step {x y : Conf × ContentPipelineState}
    (h : LowStep x y) (hx : LowInv x) : LowInv y := by
  obtain ⟨hs, hcond⟩ := h
  obtain ⟨hscore, hcp, -⟩ := hx
  refine ⟨?_, ?_⟩
  · intro sc hsc
    rcases hcond sc hsc with h2 | h2
    · exact hscore sc h2
    · exact h2
  · cases hs with
    | run_init s s' h2 => exact ⟨nofun, nofun⟩
    | run_research s r => exact ⟨nofun, nofun⟩
    | run_type_routing s =>
      refine ⟨?_, nofun⟩
      intro he
      injection he with he2
      rcases conduct_research_router_spec s with ⟨-, h3⟩ | ⟨-, h3⟩ | ⟨-, -, h3⟩ <;>
        rw [h3] at he2 <;> exact absurd he2 (by decide)
    | run_make_blog s l bp h2 => exact ⟨nofun, nofun⟩
    | run_make_tweet s l t h2 => exact ⟨nofun, nofun⟩
    | run_make_linkedin s l p h2 => exact ⟨nofun, nofun⟩
    | run_check_seo s sc h2 => exact ⟨nofun, nofun⟩
    | run_check_virality c s sc hc => exact ⟨nofun, nofun⟩
    | run_score_routing c s l hc h2 =>
      refine ⟨?_, nofun⟩
      intro he
      injection he with he2
      subst he2
      cases hss : s.score with
      | none =>
        unfold score_router at h2
        rw [hss] at h2
        cases h2
      | some sc =>
        have hlt : sc.score < 8 := hscore sc hss
        rcases score_router_spec hss h2 with
          ⟨hge, h3⟩ | ⟨-, -, h3⟩ | ⟨-, -, h3⟩ | ⟨-, -, -, h3⟩
        · omega
        · exact absurd h3 (by decide)
        · exact absurd h3 (by decide)
        · exact absurd h3 (by decide)
    | run_finalize s => exact absurd rfl hcp

theorem low_reach_inv {x y : Conf × ContentPipelineState} {n : Nat}
    (h : LowReach x n y) (hx : LowInv x) : LowInv y := by
  induction h with
  | refl => exact hx
  | tail _ h2 ih => exact low_inv_step h2 ih

/-- `needle` occurs verbatim inside `hay`. -/
def containsStr (needle hay : String) : Prop :=
  ∃ u v : String, u ++ needle ++ v = hay

theorem containsStr_append_right {needle hay : String} (b : String)
    (h : containsStr needle hay) : containsStr needle (hay ++ b) := by
  obtain ⟨u, v, rfl⟩ := h
  exact ⟨u, v ++ b, by simp [String.append_assoc]⟩

theorem containsStr_last (x needle : String) : containsStr needle (x ++ needle) :=
  ⟨x, "", by simp⟩

/-- Both interpolated revision fields occur verbatim in a prompt of the
shape shared by the three regeneration f-strings: literal text around
the topic `x`, the score reason `y`, the serialized artifact `z` and
the research `w`. -/
theorem improve_prompt_contains (a x b y c z d w e : String) :
    containsStr y (a ++ x ++ b ++ y ++ c ++ z ++ d ++ w ++ e) ∧
    containsStr z (a ++ x ++ b ++ y ++ c ++ z ++ d ++ w ++ e) := by
  constructor
  · apply containsStr_append_right
    apply containsStr_append_right
    apply containsStr_append_right
    apply containsStr_append_right
    apply containsStr_append_right
    exact containsStr_last _ _
  · apply containsStr_append_right
    apply containsStr_append_right
    apply containsStr_append_right
    exact containsStr_last _ _

/-- How many artifact variants of the state are populated. -/
def populatedCount (s : ContentPipelineState) : Nat :=
  (if s.blog_post.isSome then 1 else 0) + (if s.tweet.isSome then 1 else 0) +
    (if s.linkedin_post.isSome then 1 else 0)

/-- The keys of an optional scoring-inputs dictionary. -/
def inputKeys (o : Option (List (String × InputValue))) : List String :=
  (o.getD []).map Prod.fst

/-- A passing boundary score (exactly the threshold 8). -/
def passScore : Score := { score := 8, reason := "good enough" }

/-- A top score. -/
def highScore : Score := { score := 10, reason := "excellent" }

/-- A just-below-threshold score. -/
def nearScore : Score := { score := 7, reason := "close" }

/-- The demonstration state rescored at the boundary value 8. -/
def demoPass : ContentPipelineState := { demoS4 with score := some passScore }

/-- The demonstration state rescored at 10. -/
def demoTen : ContentPipelineState := { demoS4 with score := some highScore }

/-- The demonstration state rescored at 7. -/
def demoSeven : ContentPipelineState := { demoS4 with score := some nearScore }

/-- A state with an invalid content type and an empty topic. -/
def invalidEmptyState : ContentPipelineState := initialState "podcast" ""

/-- C1: whenever `score_router` runs with a populated score, a value of
at least 8 routes to the terminal `"check_passed"` transition, and any
lower value routes to the regenerate transition of the current content
type (`remake_blog` for blog, `remake_linkedin_post` for linkedin,
`remake_tweet` for tweet); the boundary at exactly 8 is an inclusive
pass. -/
theorem score_router_threshold (s : ContentPipelineState) (sc : Score)
    (h : s.score = some sc) :
    (sc.score ≥ 8 → score_router s = some "check_passed") ∧
    (sc.score < 8 →
      (s.content_type = "blog" → score_router s = some "remake_blog") ∧
      (s.content_type = "linkedin" → score_router s = some "remake_linkedin_post") ∧
      (s.content_type = "tweet" → score_router s = some "remake_tweet")) := by
  have hrr : score_router s =
      if sc.score ≥ 8 then some "check_passed"
      else if s.content_type = "blog" then some "remake_blog"
      else if s.content_type = "linkedin" then some "remake_linkedin_post"
      else some "remake_tweet" := by
    unfold score_router
    rw [h]
  constructor
  · intro hge
    rw [hrr, if_pos hge]
  · intro hlt
    have hne : ¬ sc.score ≥ 8 := by omega
    refine ⟨?_, ?_, ?_⟩ <;> intro hct <;> rw [hrr, if_neg hne, hct] <;> decide

/-- C1 witness: scores 8 and 10 pass, score 7 on a blog run yields
`remake_blog`. -/
theorem score_router_threshold_witness :
    score_router demoPass = some "check_passed" ∧
    score_router demoTen = some "check_passed" ∧
    score_router demoSeven = some "remake_blog" :=
  ⟨(score_router_threshold demoPass passScore rfl).1 (by decide),
   (score_router_threshold demoTen highScore rfl).1 (by decide),
   ((score_router_threshold demoSeven nearScore rfl).2 (by decide)).1 rfl⟩

/-- C2: a generation step whose matching artifact is absent builds the
create request, a pure function of the topic and the research (no prior
artifact, no prior score reason); when the artifact is present the
request is the revise prompt, which contains the previous artifact
serialized with `model_dump_json` and the previous score reason
verbatim.  Both entry points go through the same request function and
differ only on this artifact-absent branch. -/
theorem generation_request_revision_context (s : ContentPipelineState) :
    (s.blog_post = none →
      handle_make_blog_request s = some (blog_create_prompt s.topic s.research)) ∧
    (∀ bp sc, s.blog_post = some bp → s.score = some sc →
      handle_make_blog_request s =
        some (blog_improve_prompt s.topic sc.reason bp.model_dump_json s.research) ∧
      containsStr bp.model_dump_json
        (blog_improve_prompt s.topic sc.reason bp.model_dump_json s.research) ∧
      containsStr sc.reason
        (blog_improve_prompt s.topic sc.reason bp.model_dump_json s.research)) ∧
    (s.tweet = none →
      handle_make_tweet_request s = some (tweet_create_prompt s.topic s.research)) ∧
    (∀ t sc, s.tweet = some t → s.score = some sc →
      handle_make_tweet_request s =
        some (tweet_improve_prompt s.topic sc.reason t.model_dump_json s.research) ∧
      containsStr t.model_dump_json
        (tweet_improve_prompt s.topic sc.reason t.model_dump_json s.research) ∧
      containsStr sc.reason
        (tweet_improve_prompt s.topic sc.reason t.model_dump_json s.research)) ∧
    (s.linkedin_post = none →
      handle_make_linkedin_post_request s =
        some (linkedin_create_prompt s.topic s.research)) ∧
    (∀ p sc, s.linkedin_post = some p → s.score = some sc →
      handle_make_linkedin_post_request s =
        some (linkedin_improve_prompt s.topic sc.reason p.model_dump_json s.research) ∧
      containsStr p.model_dump_json
        (linkedin_improve_prompt s.topic sc.reason p.model_dump_json s.research) ∧
      containsStr sc.reason
        (linkedin_improve_prompt s.topic sc.reason p.model_dump_json s.research)) := by
  refine ⟨?_, ?_, ?_, ?_, ?_, ?_⟩
  · intro hb
    unfold handle_make_blog_request
    rw [hb]
  · intro bp sc hb hsc
    refine ⟨?_, ?_, ?_⟩
    · unfold handle_make_blog_request
      rw [hb, hsc]
    · exact (improve_prompt_contains _ s.topic _ sc.reason _
        bp.model_dump_json _ s.research _).2
    · exact (improve_prompt_contains _ s.topic _ sc.reason _
        bp.model_dump_json _ s.research _).1
  · intro ht
    unfold handle_make_tweet_request
    rw [ht]
  · intro t sc ht hsc
    refine ⟨?_, ?_, ?_⟩
    · unfold handle_make_tweet_request
      rw [ht, hsc]
    · exact (improve_prompt_contains _ s.topic _ sc.reason _
        t.model_dump_json _ s.research _).2
    · exact (improve_prompt_contains _ s.topic _ sc.reason _
        t.model_dump_json _ s.research _).1
  · intro hp
    unfold handle_make_linkedin_post_request
    rw [hp]
  · intro p sc hp hsc
    refine ⟨?_, ?_, ?_⟩
    · unfold handle_make_linkedin_post_request
      rw [hp, hsc]
    · exact (improve_prompt_contains _ s.topic _ sc.reason _
        p.model_dump_json _ s.research _).2
    · exact (improve_prompt_contains _ s.topic _ sc.reason _
        p.model_dump_json _ s.research _).1

/-- C2 witness: on the demonstration state (blog post present, scored
low, no tweet) the tweet request is the create prompt while the blog
request is the revise prompt containing the serialized post and the
reason. -/
theorem generation_request_revision_context_witness :
    handle_make_tweet_request demoS4 =
      some (tweet_create_prompt demoS4.topic demoS4.research) ∧
    handle_make_blog_request demoS4 =
      some (blog_improve_prompt demoS4.topic lowScore.reason
        demoPost.model_dump_json demoS4.research) ∧
    containsStr demoPost.model_dump_json
      (blog_improve_prompt demoS4.topic lowScore.reason
        demoPost.model_dump_json demoS4.research) ∧
    containsStr lowScore.reason
      (blog_improve_prompt demoS4.topic lowScore.reason
        demoPost.model_dump_json demoS4.research) :=
  ⟨(generation_request_revision_context demoS4).2.2.1 rfl,
   ((generation_request_revision_context demoS4).2.1 demoPost lowScore rfl rfl).1,
   ((generation_request_revision_context demoS4).2.1 demoPost lowScore rfl rfl).2.1,
   ((generation_request_revision_context demoS4).2.1 demoPost lowScore rfl rfl).2.2⟩

/-- C3: for a non-empty topic, `init_content_pipeline` writes exactly
the mapped constant `max_length` (tweet 150, blog 800, linkedin 500) and
changes nothing else; for any other content type it fails with
`invalidContentType`. -/
theorem init_max_length (s : ContentPipelineState) :
    (s.topic ≠ "" →
      (s.content_type = "tweet" →
        init_content_pipeline s = .ok { s with max_length := 150 }) ∧
      (s.content_type = "blog" →
        init_content_pipeline s = .ok { s with max_length := 800 }) ∧
      (s.content_type = "linkedin" →
        init_content_pipeline s = .ok { s with max_length := 500 })) ∧
    (¬ validType s.content_type →
      init_content_pipeline s = .error .invalidContentType) := by
  constructor
  · intro htop
    refine ⟨?_, ?_, ?_⟩ <;> intro hct
    · have hmem : s.content_type ∈ ["tweet", "blog", "linkedin"] := by
        rw [hct]; decide
      rw [init_content_pipeline, if_neg (not_not_intro hmem), if_neg htop,
        if_pos hct]
    · have hmem : s.content_type ∈ ["tweet", "blog", "linkedin"] := by
        rw [hct]; decide
      have hnt : ¬ s.content_type = "tweet" := by rw [hct]; decide
      rw [init_content_pipeline, if_neg (not_not_intro hmem), if_neg htop,
        if_neg hnt, if_pos hct]
    · have hmem : s.content_type ∈ ["tweet", "blog", "linkedin"] := by
        rw [hct]; decide
      have hnt : ¬ s.content_type = "tweet" := by rw [hct]; decide
      have hnb : ¬ s.content_type = "blog" := by rw [hct]; decide
      rw [init_content_pipeline, if_neg (not_not_intro hmem), if_neg htop,
        if_neg hnt, if_neg hnb, if_pos hct]
  · intro hv
    have hmem : s.content_type ∉ ["tweet", "blog", "linkedin"] := by
      simpa [validType] using hv
    rw [init_content_pipeline, if_pos hmem]

/-- C3 witness: the three constants on concrete valid inputs, and the
failure on a concrete invalid type. -/
theorem init_max_length_witness :
    init_content_pipeline (initialState "tweet" "AI") =
      .ok { initialState "tweet" "AI" with max_length := 150 } ∧
    init_content_pipeline (initialState "blog" "AI") =
      .ok { initialState "blog" "AI" with max_length := 800 } ∧
    init_content_pipeline (initialState "linkedin" "AI") =
      .ok { initialState "linkedin" "AI" with max_length := 500 } ∧
    init_content_pipeline (initialState "podcast" "AI") =
      .error .invalidContentType :=
  ⟨((init_max_length _).1 (by decide)).1 rfl,
   ((init_max_length _).1 (by decide)).2.1 rfl,
   ((init_max_length _).1 (by decide)).2.2 rfl,
   (init_max_length _).2 (by decide)⟩

/-- C4 counterexample: with an invalid content type and an empty topic,
`init_content_pipeline` fails with `invalidContentType`, not
`emptyTopic` — the content-type check runs first, so an empty topic
does not yield `emptyTopic` when the content type is also invalid. -/
theorem init_empty_topic_counterexample :
    invalidEmptyState.topic = "" ∧
    init_content_pipeline invalidEmptyState = .error .invalidContentType ∧
    init_content_pipeline invalidEmptyState ≠ .error .emptyTopic := by
  refine ⟨rfl, rfl, ?_⟩
  intro h
  injection h with h2
  cases h2

/-- C4 amended: `init_content_pipeline` fails with `emptyTopic` iff the
topic is empty AND the content type is valid; an invalid content type
takes precedence because its check runs first. -/
theorem init_empty_topic_amended (s : ContentPipelineState) :
    init_content_pipeline s = .error .emptyTopic ↔
      s.topic = "" ∧ validType s.content_type := by
  unfold init_content_pipeline
  by_cases hm : s.content_type ∉ ["tweet", "blog", "linkedin"]
  · rw [if_pos hm]
    have hnv : ¬ validType s.content_type := by simpa [validType] using hm
    constructor
    · intro h
      injection h with h2
      cases h2
    · rintro ⟨-, hv⟩
      exact absurd hv hnv
  · rw [if_neg hm]
    have hv : validType s.content_type := by
      simpa [validType] using not_not.mp hm
    by_cases ht : s.topic = ""
    · rw [if_pos ht]
      exact iff_of_true rfl ⟨ht, hv⟩
    · rw [if_neg ht]
      constructor
      · intro h
        split at h
        · cases h
        · split at h
          · cases h
          · split at h
            · cases h
            · cases h
      · rintro ⟨h, -⟩
        exact absurd h ht

/-- C4 witness: empty topic with the valid type `"blog"` does yield
`emptyTopic`. -/
theorem init_empty_topic_amended_witness :
    init_content_pipeline (initialState "blog" "") = .error .emptyTopic :=
  (init_empty_topic_amended (initialState "blog" "")).mpr ⟨rfl, by decide⟩

/-- C5: `conduct_research_router` is a pure total function of the
content type: blog routes to `make_blog`, tweet to `make_tweet`,
linkedin to `make_linkedin_post`, and any non-tweet, non-blog value
falls back to `make_linkedin_post`. -/
theorem type_routing_total (s : ContentPipelineState) :
    (s.content_type = "blog" → conduct_research_router s = "make_blog") ∧
    (s.content_type = "tweet" → conduct_research_router s = "make_tweet") ∧
    (s.content_type = "linkedin" →
      conduct_research_router s = "make_linkedin_post") ∧
    (s.content_type ≠ "tweet" → s.content_type ≠ "blog" →
      conduct_research_router s = "make_linkedin_post") := by
  refine ⟨?_, ?_, ?_, ?_⟩
  · intro hct
    rw [conduct_research_router, if_pos hct]
  · intro hct
    have hnb : ¬ s.content_type = "blog" := by rw [hct]; decide
    rw [conduct_research_router, if_neg hnb, if_pos hct]
  · intro hct
    have hnb : ¬ s.content_type = "blog" := by rw [hct]; decide
    have hnt : ¬ s.content_type = "tweet" := by rw [hct]; decide
    rw [conduct_research_router, if_neg hnb, if_neg hnt]
  · intro hnt hnb
    rw [conduct_research_router, if_neg hnb, if_neg hnt]

/-- C5 witness: the three matching routes on concrete states and the
fallback on a concrete invalid type. -/
theorem type_routing_total_witness :
    conduct_research_router (initialState "blog" "AI") = "make_blog" ∧
    conduct_research_router (initialState "tweet" "AI") = "make_tweet" ∧
    conduct_research_router (initialState "linkedin" "AI") = "make_linkedin_post" ∧
    conduct_research_router (initialState "podcast" "AI") = "make_linkedin_post" :=
  ⟨(type_routing_total _).1 rfl,
   (type_routing_total _).2.1 rfl,
   (type_routing_total _).2.2.1 rfl,
   (type_routing_total _).2.2.2 (by decide) (by decide)⟩

/-- C6: in every reachable configuration of a run, at most one artifact
variant is populated and it matches the content type; and every
generation firing (first or regeneration) replaces the matching
artifact field wholesale with the newly parsed artifact, leaving every
other field untouched. -/
theorem artifact_invariant (ct topic : String) (c : Conf)
    (s : ContentPipelineState)
    (h : Reach (.atStart, initialState ct topic) (c, s)) :
    populatedCount s ≤ 1 ∧
    (s.blog_post.isSome → s.content_type = "blog") ∧
    (s.tweet.isSome → s.content_type = "tweet") ∧
    (s.linkedin_post.isSome → s.content_type = "linkedin") ∧
    (∀ c' s', Step (c, s) (c', s') →
      (c' = .afterMakeBlog → ∃ bp : BlogPost, s' = handle_make_blog_update s bp) ∧
      (c' = .afterMakeTweet → ∃ t : Tweet, s' = handle_make_tweet_update s t) ∧
      (c' = .afterMakeLinkedin →
        ∃ p : LinkedInPost, s' = handle_make_linkedin_post_update s p)) := by
  have hI := reach_inv h
  refine ⟨?_, hI.blogMatch, hI.tweetMatch, hI.linkMatch, ?_⟩
  · unfold populatedCount
    by_cases hb : s.blog_post.isSome <;> by_cases ht : s.tweet.isSome <;>
      by_cases hl : s.linkedin_post.isSome <;> simp [hb, ht, hl]
    · exact absurd ((hI.blogMatch hb).symm.trans (hI.tweetMatch ht)) (by decide)
    · exact absurd ((hI.blogMatch hb).symm.trans (hI.tweetMatch ht)) (by decide)
    · exact absurd ((hI.blogMatch hb).symm.trans (hI.linkMatch hl)) (by decide)
    · exact absurd ((hI.tweetMatch ht).symm.trans (hI.linkMatch hl)) (by decide)
  · intro c' s' hstep
    cases hstep with
    | run_init s s' h2 => exact ⟨nofun, nofun, nofun⟩
    | run_research s r => exact ⟨nofun, nofun, nofun⟩
    | run_type_routing s => exact ⟨nofun, nofun, nofun⟩
    | run_make_blog s l bp h2 => exact ⟨fun _ => ⟨bp, rfl⟩, nofun, nofun⟩
    | run_make_tweet s l t h2 => exact ⟨nofun, fun _ => ⟨t, rfl⟩, nofun⟩
    | run_make_linkedin s l p h2 => exact ⟨nofun, nofun, fun _ => ⟨p, rfl⟩⟩
    | run_check_seo s sc h2 => exact ⟨nofun, nofun, nofun⟩
    | run_check_virality c s sc hc => exact ⟨nofun, nofun, nofun⟩
    | run_score_routing c s l hc h2 => exact ⟨nofun, nofun, nofun⟩
    | run_finalize s => exact ⟨nofun, nofun, nofun⟩

/-- C6 witness: instantiated on the demonstration run at the
configuration following `check_seo`. -/
theorem artifact_invariant_witness :
    populatedCount demoS4 ≤ 1 ∧
    (demoS4.blog_post.isSome → demoS4.content_type = "blog") ∧
    (demoS4.tweet.isSome → demoS4.content_type = "tweet") ∧
    (demoS4.linkedin_post.isSome → demoS4.content_type = "linkedin") ∧
    (∀ c' s', Step (.afterCheckSeo, demoS4) (c', s') →
      (c' = .afterMakeBlog →
        ∃ bp : BlogPost, s' = handle_make_blog_update demoS4 bp) ∧
      (c' = .afterMakeTweet →
        ∃ t : Tweet, s' = handle_make_tweet_update demoS4 t) ∧
      (c' = .afterMakeLinkedin →
        ∃ p : LinkedInPost, s' = handle_make_linkedin_post_update demoS4 p)) :=
  artifact_invariant "blog" "AI Dog Training" .afterCheckSeo demoS4 demo_reach_check

/-- C7: scoring is dispatched by content type along the listen edges:
the configuration after `check_seo` (the `SeoCrew` scorer) only occurs
on blog runs, the configuration after `check_virality` (the
`ViralityCrew` scorer) only on tweet or linkedin runs; from a blog
generation the unique next step is the SEO check and from a tweet or
linkedin generation the unique next step is the virality check, each
overwriting (not accumulating into) the `score` field. -/
theorem scoring_dispatch (ct topic : String) (c : Conf)
    (s : ContentPipelineState)
    (h : Reach (.atStart, initialState ct topic) (c, s)) :
    (c = .afterCheckSeo → s.content_type = "blog") ∧
    (c = .afterCheckVirality →
      s.content_type = "tweet" ∨ s.content_type = "linkedin") ∧
    (∀ c' s', Step (c, s) (c', s') →
      (c = .afterMakeBlog →
        c' = .afterCheckSeo ∧ ∃ sc : Score, s' = check_score_update s sc) ∧
      ((c = .afterMakeTweet ∨ c = .afterMakeLinkedin) →
        c' = .afterCheckVirality ∧ ∃ sc : Score, s' = check_score_update s sc)) := by
  have hI := reach_inv h
  refine ⟨hI.confSeo, hI.confVir, ?_⟩
  intro c' s' hstep
  cases hstep with
  | run_init s s' h2 =>
    exact ⟨nofun, fun h3 => by rcases h3 with h3 | h3 <;> cases h3⟩
  | run_research s r =>
    exact ⟨nofun, fun h3 => by rcases h3 with h3 | h3 <;> cases h3⟩
  | run_type_routing s =>
    exact ⟨nofun, fun h3 => by rcases h3 with h3 | h3 <;> cases h3⟩
  | run_make_blog s l bp h2 =>
    exact ⟨nofun, fun h3 => by rcases h3 with h3 | h3 <;> cases h3⟩
  | run_make_tweet s l t h2 =>
    exact ⟨nofun, fun h3 => by rcases h3 with h3 | h3 <;> cases h3⟩
  | run_make_linkedin s l p h2 =>
    exact ⟨nofun, fun h3 => by rcases h3 with h3 | h3 <;> cases h3⟩
  | run_check_seo s sc h2 =>
    exact ⟨fun _ => ⟨rfl, sc, rfl⟩,
      fun h3 => by rcases h3 with h3 | h3 <;> cases h3⟩
  | run_check_virality c s sc hc =>
    rcases hc with rfl | rfl
    · exact ⟨nofun, fun _ => ⟨rfl, sc, rfl⟩⟩
    · exact ⟨nofun, fun _ => ⟨rfl, sc, rfl⟩⟩
  | run_score_routing c s l hc h2 =>
    rcases hc with rfl | rfl
    · exact ⟨nofun, fun h3 => by rcases h3 with h3 | h3 <;> cases h3⟩
    · exact ⟨nofun, fun h3 => by rcases h3 with h3 | h3 <;> cases h3⟩
  | run_finalize s =>
    exact ⟨nofun, fun h3 => by rcases h3 with h3 | h3 <;> cases h3⟩

/-- C7 witness: instantiated on the demonstration run at the
configuration following `check_seo`. -/
theorem scoring_dispatch_witness :
    (Conf.afterCheckSeo = .afterCheckSeo → demoS4.content_type = "blog") ∧
    (Conf.afterCheckSeo = .afterCheckVirality →
      demoS4.content_type = "tweet" ∨ demoS4.content_type = "linkedin") ∧
    (∀ c' s', Step (.afterCheckSeo, demoS4) (c', s') →
      (Conf.afterCheckSeo = .afterMakeBlog →
        c' = .afterCheckSeo ∧ ∃ sc : Score, s' = check_score_update demoS4 sc) ∧
      ((Conf.afterCheckSeo = .afterMakeTweet ∨
          Conf.afterCheckSeo = .afterMakeLinkedin) →
        c' = .afterCheckVirality ∧
          ∃ sc : Score, s' = check_score_update demoS4 sc)) :=
  scoring_dispatch "blog" "AI Dog Training" .afterCheckSeo demoS4 demo_reach_check

/-- C8: the regenerate-score loop has no iteration cap: for every bound
`n` there is a run whose scoring steps all return values below 8 (a
`LowReach` run) that performs more than `n` generation firings, and no
such all-low run ever reaches the terminal configuration — the workflow
terminates only if some scoring call returns at least 8. -/
theorem unbounded_regeneration_loop (n : Nat) :
    (∃ y : Conf × ContentPipelineState,
      LowReach (.atStart, initialState "blog" "AI Dog Training") (n + 2) y) ∧
    (∀ (k : Nat) (y : Conf × ContentPipelineState),
      LowReach (.atStart, initialState "blog" "AI Dog Training") k y →
      y.1 ≠ .finished) := by
  constructor
  · exact ⟨(.afterCheckSeo, demoS4), low_reach_loop (n + 1)⟩
  · intro k y h
    have hstart : LowInv (.atStart, initialState "blog" "AI Dog Training") :=
      ⟨fun sc hsc => Option.noConfusion hsc, nofun, nofun⟩
    exact (low_reach_inv h hstart).2.2

/-- C8 witness: the bound instantiated at 0. -/
theorem unbounded_regeneration_loop_witness :
    (∃ y : Conf × ContentPipelineState,
      LowReach (.atStart, initialState "blog" "AI Dog Training") 2 y) ∧
    (∀ (k : Nat) (y : Conf × ContentPipelineState),
      LowReach (.atStart, initialState "blog" "AI Dog Training") k y →
      y.1 ≠ .finished) :=
  unbounded_regeneration_loop 0

/-- C9 counterexample: on the demonstration state the `check_seo`
inputs dictionary has exactly the keys `topic` and `blog_post` — the
content type is NOT part of the input handed to the SEO scoring
collaborator, contradicting the claim that every scoring input consists
of topic, content type and serialized artifact. -/
theorem scoring_inputs_counterexample :
    inputKeys (check_seo_inputs demoS4) = ["topic", "blog_post"] ∧
    "content_type" ∉ inputKeys (check_seo_inputs demoS4) := by
  constructor
  · rfl
  · decide

/-- C9 amended: the SEO scoring input consists of the topic and the
serialized blog post only (no content type); the virality scoring input
consists of the topic, the content type, and the current tweet or
linkedin artifact passed as the raw object (not serialized). -/
theorem scoring_inputs_amended (s : ContentPipelineState) :
    (∀ bp, s.blog_post = some bp →
      check_seo_inputs s =
        some [("topic", .str s.topic), ("blog_post", .str bp.model_dump_json)] ∧
      inputKeys (check_seo_inputs s) = ["topic", "blog_post"]) ∧
    (s.blog_post = none → check_seo_inputs s = none) ∧
    check_virality_inputs s =
      [("topic", .str s.topic), ("content_type", .str s.content_type),
       ("content",
         if s.content_type = "tweet" then .tweetObj s.tweet
         else .linkedinObj s.linkedin_post)] := by
  refine ⟨?_, ?_, rfl⟩
  · intro bp hb
    constructor
    · unfold check_seo_inputs
      rw [hb]
    · unfold inputKeys check_seo_inputs
      rw [hb]
      rfl
  · intro hb
    unfold check_seo_inputs
    rw [hb]

/-- C9 witness: the amended statement on the demonstration state. -/
theorem scoring_inputs_amended_witness :
    check_seo_inputs demoS4 =
      some [("topic", .str demoS4.topic),
            ("blog_post", .str demoPost.model_dump_json)] ∧
    check_virality_inputs demoS4 =
      [("topic", .str demoS4.topic),
       ("content_type", .str demoS4.content_type),
       ("content",
         if demoS4.content_type = "tweet" then .tweetObj demoS4.tweet
         else .linkedinObj demoS4.linkedin_post)] :=
  ⟨((scoring_inputs_amended demoS4).1 demoPost rfl).1,
   (scoring_inputs_amended demoS4).2.2⟩

/-- C10: whenever the score routing fires (the configurations after
`check_seo` or `check_virality`), the score is populated, so the
unguarded `score.score` dereference in `score_router` succeeds and the
router returns a route. -/
theorem score_router_guard (ct topic : String) (c : Conf)
    (s : ContentPipelineState)
    (h : Reach (.atStart, initialState ct topic) (c, s))
    (hc : c = .afterCheckSeo ∨ c = .afterCheckVirality) :
    ∃ sc : Score, s.score = some sc ∧ ∃ l : String, score_router s = some l := by
  have hI := reach_inv h
  obtain ⟨sc, hsc⟩ := Option.isSome_iff_exists.mp (hI.scoreSome hc)
  refine ⟨sc, hsc, ?_⟩
  unfold score_router
  rw [hsc]
  show ∃ l, (if sc.score ≥ 8 then some "check_passed"
    else if s.content_type = "blog" then some "remake_blog"
    else if s.content_type = "linkedin" then some "remake_linkedin_post"
    else some "remake_tweet") = some l
  split
  · exact ⟨_, rfl⟩
  · split
    · exact ⟨_, rfl⟩
    · split
      · exact ⟨_, rfl⟩
      · exact ⟨_, rfl⟩

/-- C10 witness: instantiated on the demonstration run at the
configuration following `check_seo`. -/
theorem score_router_guard_witness :
    ∃ sc : Score, demoS4.score = some sc ∧
      ∃ l : String, score_router demoS4 = some l :=
  score_router_guard "blog" "AI Dog Training" .afterCheckSeo demoS4
    demo_reach_check (Or.inl rfl)

end ContentPipeline
